import Mathlib

/-!
Shallow embedding of the chat/presence messaging core of the
`job-portal-backend` repository (Django/Channels), covering:

* `chat/models.py` — `Conversation`, `Message`, `MessageAttachment`,
  `TypingIndicator` and their methods (`mark_as_read`, unread counters);
* `chat/consumers.py` — `ChatConsumer` (`connect`, `receive` dispatch,
  `save_message`, `mark_message_as_read`, `serialize_message`,
  `set_user_online`, `handle_read_receipt`);
* `chat/views.py` — `ConversationViewSet.mark_read` (bulk mark-all-read);
* `accounts/models.py` — `CustomUser` field set (for the `last_seen` write).

Machine conventions: Django primary keys and timestamps are `Nat`
(timestamps are seconds); Django model-instance equality (`==`) compares
primary keys, so user/profile comparisons are embedded as `.id` equality;
the unread counters are `PositiveIntegerField`s mutated by ordinary Python
integer arithmetic, embedded as `Int` with the exact expressions of the
source (`x + 1`, `max 0 (x - 1)`, `:= 0`); fallible Python code
(uncaught exceptions) is `Except String`/an `uncaught` field.
-/

namespace JobPortal

/-- Model of `accounts/models.py` `CustomUser` (fields used by the chat core). -/
structure CustomUser where
  id : Nat
  email : String
  first_name : String
  last_name : String
  last_activity : Option Nat
  is_online : Bool
deriving DecidableEq, Repr

/-- Names of the concrete fields of `CustomUser` (`accounts/models.py:23-39`
plus the fields inherited from `AbstractUser`).  Django
`save(update_fields=...)` raises `ValueError` when a listed name is not
among these.  Note there is no `last_seen` field. -/
def customUserConcreteFields : List String :=
  ["id", "password", "last_login", "is_superuser", "first_name", "last_name",
   "is_staff", "is_active", "date_joined", "email", "role",
   "last_activity", "is_online"]

/-- Model of `accounts/models.py` `Recruiter` profile (pk + user). -/
structure Recruiter where
  id : Nat
  user : CustomUser
deriving DecidableEq, Repr

/-- Model of `accounts/models.py` `JobSeeker` profile (pk + user). -/
structure JobSeeker where
  id : Nat
  user : CustomUser
deriving DecidableEq, Repr

/-- Model of the `chat/models.py` `Message.status` choices. -/
inductive MsgStatus where
  | sent
  | delivered
  | read
  | failed
deriving DecidableEq, Repr

/-- Model of `chat/models.py` `Conversation` (fields used by the messaging core).
`unread_by_recruiter` / `unread_by_job_seeker` are `PositiveIntegerField`s;
the Python code manipulates them with plain integer arithmetic, so they are
embedded as `Int` (the ≥ 0 invariant is then claim C6, not a typing
artefact). -/
structure Conversation where
  id : Nat
  recruiter : Recruiter
  job_seeker : JobSeeker
  last_message_at : Option Nat
  unread_by_recruiter : Int
  unread_by_job_seeker : Int
deriving DecidableEq, Repr

/-- Model defaults of `chat/models.py:50-54`: `last_message_at` null,
both unread counters 0. -/
def mkConversation (cid : Nat) (r : Recruiter) (s : JobSeeker) : Conversation :=
  { id := cid, recruiter := r, job_seeker := s,
    last_message_at := none,
    unread_by_recruiter := 0, unread_by_job_seeker := 0 }

/-- Model of `chat/models.py` `Message` (fields used by the messaging core).
`sender`/`receiver` are FK rows, embedded denormalised. -/
structure Message where
  id : Nat
  conversation : Nat
  sender : CustomUser
  receiver : CustomUser
  content : String
  message_type : String
  status : MsgStatus
  created_at : Nat
  read_at : Option Nat
deriving DecidableEq, Repr

/-- Model of `chat/models.py` `MessageAttachment`.  `file` is the opaque blob
reference: `some url` when a file is attached (its `.url`), `none` when the
field is empty. -/
structure MessageAttachment where
  id : Nat
  message : Nat
  file : Option String
  file_name : String
  file_size : Nat
  file_type : String
  uploaded_at : Option Nat
deriving DecidableEq, Repr

/-- Model of `chat/models.py` `TypingIndicator`. -/
structure TypingRow where
  conversation : Nat
  user : Nat
  is_typing : Bool
  last_typing_at : Nat
deriving DecidableEq, Repr

/-- The relational store backing the chat core. -/
structure DB where
  users : List CustomUser
  conversations : List Conversation
  messages : List Message
  attachments : List MessageAttachment
  typing : List TypingRow
deriving DecidableEq, Repr

/-- Lookup `Conversation.objects.get(id=cid)`. -/
def DB.findConversation (db : DB) (cid : Nat) : Option Conversation :=
  db.conversations.find? (fun c => decide (c.id = cid))

/-- Replace the row of conversation `c` (same pk) by `c'` — the effect of
`conversation.save()` on a fetched row. -/
def DB.saveConversation (db : DB) (c c' : Conversation) : DB :=
  { db with conversations := db.conversations.map (fun x => if x.id = c.id then c' else x) }

/-- Auto primary key for the next `Message` row. -/
def DB.nextMessageId (db : DB) : Nat :=
  (db.messages.foldl (fun acc m => max acc m.id) 0) + 1

/-- Model of `Conversation.get_unread_count` (`chat/models.py:116-122`): the stored
counter for the side `user` belongs to. -/
def Conversation.unreadFor (c : Conversation) (uid : Nat) : Int :=
  if uid = c.recruiter.user.id then c.unread_by_recruiter
  else if uid = c.job_seeker.user.id then c.unread_by_job_seeker
  else 0

/-! ### Presence cache (`django.core.cache`, TTL semantics) -/

/-- One cache entry: key, stored value, absolute expiry instant. -/
structure CacheEntry where
  key : String
  val : String
  expires_at : Nat
deriving DecidableEq, Repr

/-- TTL key-value cache (Django `cache`). -/
structure Cache where
  entries : List CacheEntry
deriving DecidableEq, Repr

def Cache.empty : Cache := ⟨[]⟩

/-- Model of `cache.set(key, val, timeout)` at instant `now`: the entry expires at
`now + timeout`; an existing entry under the same key is overwritten. -/
def Cache.set (c : Cache) (key val : String) (now timeout : Nat) : Cache :=
  ⟨{ key := key, val := val, expires_at := now + timeout } ::
    c.entries.filter (fun e => decide (e.key ≠ key))⟩

/-- Model of `cache.delete(key)`. -/
def Cache.delete (c : Cache) (key : String) : Cache :=
  ⟨c.entries.filter (fun e => decide (e.key ≠ key))⟩

/-- Model of `cache.get(key)` at instant `now`: `none` when the marker is absent or
already expired. -/
def Cache.get (c : Cache) (key : String) (now : Nat) : Option String :=
  match c.entries.find? (fun e => decide (e.key = key)) with
  | some e => if now < e.expires_at then some e.val else none
  | none => none

/-- Raw stored entry under a key, expiry ignored (used to state that an
operation leaves all other keys untouched). -/
def Cache.rawLookup (c : Cache) (key : String) : Option CacheEntry :=
  c.entries.find? (fun e => decide (e.key = key))

/-- The presence cache key of a user (`consumers.py:151`, `:235`). -/
def userOnlineKey (uid : Nat) : String := "user_online_" ++ toString uid

/-! ### Chat session state and `save_message` -/

/-- The per-connection state of `ChatConsumer` once `connect` has set
`self.user` and `self.conversation_id`. -/
structure Session where
  user : CustomUser
  conversation_id : Nat
deriving DecidableEq, Repr

/-- Model of `ChatConsumer.save_message` (`chat/consumers.py:168-197`).
Fetches the conversation, picks the receiver as the other participant,
creates the `Message` with `status='delivered'` (whose `save` hook,
`chat/models.py:201-208`, also writes `last_message_at`), then sets
`last_message_at` again and increments the receiver's unread counter before
saving the conversation.  Both `timezone.now()` readings of the handler are
modelled by the single instant `now`.  A missing conversation raises
`Conversation.DoesNotExist` (uncaught). -/
def save_message (sess : Session) (content mtype : String) (now : Nat)
    (db : DB) : Except String (DB × Message) :=
  match db.findConversation sess.conversation_id with
  | none => .error "Conversation.DoesNotExist"
  | some conversation =>
    let receiver :=
      if sess.user.id = conversation.recruiter.user.id then conversation.job_seeker.user
      else conversation.recruiter.user
    let message : Message :=
      { id := db.nextMessageId, conversation := conversation.id,
        sender := sess.user, receiver := receiver,
        content := content, message_type := mtype,
        status := .delivered, created_at := now, read_at := none }
    let conv1 := { conversation with last_message_at := some now }
    let conv2 :=
      if receiver.id = conversation.recruiter.user.id then
        { conv1 with unread_by_recruiter := conv1.unread_by_recruiter + 1 }
      else
        { conv1 with unread_by_job_seeker := conv1.unread_by_job_seeker + 1 }
    .ok (({ db with messages := db.messages ++ [message] }).saveConversation conversation conv2,
         message)

/-- The other participant's user id, as `save_message` computes the
receiver (`chat/consumers.py:172-175`). -/
def otherParticipantId (c : Conversation) (uid : Nat) : Nat :=
  if uid = c.recruiter.user.id then c.job_seeker.user.id else c.recruiter.user.id

/-! ### Marking messages read -/

/-- Model of `Message.mark_as_read` (`chat/models.py:193-198`): sets `read_at` and
`status='read'` only when `read_at` is still null.  The Python method
returns `None` — it does not report whether a transition occurred. -/
def Message.mark_as_read (m : Message) (now : Nat) : Message :=
  if m.read_at = none then { m with read_at := some now, status := .read } else m

/-- Model of `ChatConsumer.mark_message_as_read` (`chat/consumers.py:211-227`).
Fetches the message by `id` and `receiver=self.user`; on success calls
`mark_as_read` and then — unconditionally — decrements the reader's side of
the conversation's unread counter, floored at 0 via `max`.  A missing
message (`Message.DoesNotExist`) is caught and yields `none`.  The
conversation row of a fetched message always exists (FK integrity); the
`none` branch of that lookup is unreachable. -/
def mark_message_as_read (sess : Session) (message_id now : Nat)
    (db : DB) : DB × Option Message :=
  match db.messages.find? (fun (m : Message) => decide (m.id = message_id ∧ m.receiver.id = sess.user.id)) with
  | none => (db, none)
  | some message =>
    let message' := message.mark_as_read now
    let db1 := { db with
      messages := db.messages.map (fun (m : Message) => if m.id = message.id then message' else m) }
    match db1.findConversation message.conversation with
    | none => (db1, some message')
    | some conversation =>
      let conversation' :=
        if sess.user.id = conversation.recruiter.user.id then
          { conversation with
            unread_by_recruiter := max 0 (conversation.unread_by_recruiter - 1) }
        else
          { conversation with
            unread_by_job_seeker := max 0 (conversation.unread_by_job_seeker - 1) }
      (db1.saveConversation conversation conversation', some message')

/-! ### Presence marking (`set_user_online`) -/

/-- Model of `user.save(update_fields=fields)` on a `CustomUser` row: Django raises
`ValueError` when a listed name is not a concrete field of the model;
otherwise the row is persisted. -/
def saveUserUpdateFields (db : DB) (u : CustomUser) (fields : List String) :
    Except String DB :=
  if fields.all (fun f => customUserConcreteFields.contains f) then
    .ok { db with users := db.users.map (fun x => if x.id = u.id then u else x) }
  else
    .error "ValueError: update_fields names a field that does not exist on CustomUser"

/-- Model of `ChatConsumer.set_user_online` (`chat/consumers.py:148-165`).
Online: `cache.set('user_online_<id>', now, timeout=300)` (5 minutes);
offline: `cache.delete` of the same key.  It then tries to persist a
`last_seen` timestamp on the user row: the attribute assignment is a plain
Python instance attribute (no model effect) and
`save(update_fields=['last_seen'])` raises `ValueError` because
`CustomUser` has no `last_seen` field (`accounts/models.py:23-39`); the
`except Exception` swallows the error (as it would a missing user row). -/
def set_user_online (sess : Session) (is_onl : Bool) (now : Nat)
    (db : DB) (cache : Cache) : DB × Cache :=
  let key := userOnlineKey sess.user.id
  let cache' :=
    if is_onl then cache.set key (toString now) now 300
    else cache.delete key
  let db' :=
    match db.users.find? (fun u => decide (u.id = sess.user.id)) with
    | none => db
    | some u =>
      match saveUserUpdateFields db u ["last_seen"] with
      | .ok d => d
      | .error _ => db
  (db', cache')

/-! ### Message serialization (`serialize_message`) -/

/-- Model of `os.path.splitext(name)[1]`: the suffix starting at the last
dot, or `""` when the part before the last dot is all dots (so hidden
names like `.bashrc` have no extension). -/
def extOf (s : String) : String :=
  let cs := s.toList
  match ((List.range cs.length).filter (fun i => cs.get? i = some '.')).getLast? with
  | none => ""
  | some i => if (cs.take i).all (fun c => c = '.') then "" else String.mk (cs.drop i)

/-- Model of `MessageAttachment.is_image` (`chat/models.py:264-268`). -/
def MessageAttachment.isImage (a : MessageAttachment) : Bool :=
  [".jpg", ".jpeg", ".png", ".gif", ".bmp", ".webp"].contains (extOf a.file_name).toLower

/-- One entry of the `attachments` list built by `serialize_message`
(`chat/consumers.py:239-249`). -/
structure AttachmentPayload where
  id : Nat
  file_name : String
  file_size : Nat
  file_type : String
  file_url : Option String
  is_image : Bool
  uploaded_at : Option Nat
deriving DecidableEq, Repr

def attachmentPayload (a : MessageAttachment) : AttachmentPayload :=
  { id := a.id, file_name := a.file_name, file_size := a.file_size,
    file_type := a.file_type, file_url := a.file,
    is_image := a.isImage, uploaded_at := a.uploaded_at }

/-- The `sender`/`receiver` sub-objects of the serialized message. -/
structure UserPayload where
  id : Nat
  first_name : String
  last_name : String
  email : String
  is_online : Bool
deriving DecidableEq, Repr

/-- The dict returned by `serialize_message` (`chat/consumers.py:251-275`). -/
structure MessagePayload where
  id : Nat
  conversation : Nat
  sender : UserPayload
  receiver : UserPayload
  content : String
  message_type : String
  status : MsgStatus
  created_at : Nat
  read_at : Option Nat
  attachments : List AttachmentPayload
  is_own_message : Bool
deriving DecidableEq, Repr

/-- Python attribute lookup of a reverse FK manager on a `Message`
instance.  `chat/models.py:234-237` declares the `MessageAttachment` FK
with `related_name='attachments'` (the comment there records it was
changed from `'message_attachments'`), so `attachments` is the only
reverse-manager attribute a `Message` has; any other name raises
`AttributeError` (`none`). -/
def messageRelatedAttr (db : DB) (m : Message) (attrName : String) :
    Option (List MessageAttachment) :=
  if attrName = "attachments" then
    some (db.attachments.filter (fun a => decide (a.message = m.id)))
  else none

/-- The receiver's `is_online` in the payload (`chat/consumers.py:234-236`):
exactly, the presence marker is present and unexpired. -/
def receiverIsOnline (cache : Cache) (now : Nat) (receiverId : Nat) : Bool :=
  (cache.get (userOnlineKey receiverId) now).isSome

/-- The sender's `is_online` in the payload (`chat/consumers.py:259`):
`message.sender.id == self.user.id or cache.get(...) is not None`. -/
def senderIsOnline (sess : Session) (cache : Cache) (now : Nat) (senderId : Nat) : Bool :=
  decide (senderId = sess.user.id) || (cache.get (userOnlineKey senderId) now).isSome

/-- Model of `ChatConsumer.serialize_message` (`chat/consumers.py:229-275`).
It computes the receiver's online flag, then iterates
`message.message_attachments.all()` — but the reverse manager is named
`attachments` (`chat/models.py:237`), so this attribute access raises
`AttributeError` before the payload dict is ever built. -/
def serialize_message (sess : Session) (cache : Cache) (now : Nat) (db : DB)
    (m : Message) : Except String MessagePayload :=
  let receiver_online := receiverIsOnline cache now m.receiver.id
  match messageRelatedAttr db m "message_attachments" with
  | none => .error "AttributeError: Message object has no attribute message_attachments"
  | some atts =>
    .ok { id := m.id, conversation := m.conversation,
          sender := { id := m.sender.id, first_name := m.sender.first_name,
                      last_name := m.sender.last_name, email := m.sender.email,
                      is_online := senderIsOnline sess cache now m.sender.id },
          receiver := { id := m.receiver.id, first_name := m.receiver.first_name,
                        last_name := m.receiver.last_name, email := m.receiver.email,
                        is_online := receiver_online },
          content := m.content, message_type := m.message_type, status := m.status,
          created_at := m.created_at, read_at := m.read_at,
          attachments := atts.map attachmentPayload,
          is_own_message := decide (m.sender.id = sess.user.id) }

/-! ### Frames, group events, broadcast -/

/-- Frames the server writes to one socket (`chat/consumers.py`). -/
inductive OutFrame where
  | connected (message : String)
  | pong (timestamp : Nat)
  | chatMessage (data : MessagePayload)
  | typing (conversation_id user_id : Nat) (user_name : String) (is_typing : Bool)
  | readReceipt (message_id user_id timestamp : Nat)
deriving DecidableEq, Repr

/-- Events sent to the conversation group via `channel_layer.group_send`. -/
inductive GroupEvent where
  | chatMessage (message : MessagePayload)
  | typingIndicator (conversation_id user_id : Nat) (is_typing : Bool) (user_name : String)
  | readReceipt (message_id user_id timestamp : Nat)
deriving DecidableEq, Repr

/-- The frame each group member's consumer forwards to its socket on
receiving a group event (`chat/consumers.py:117-138`). -/
def frameOfEvent : GroupEvent → OutFrame
  | .chatMessage p => .chatMessage p
  | .typingIndicator cid uid ty nm => .typing cid uid nm ty
  | .readReceipt mid uid ts => .readReceipt mid uid ts

/-- Group broadcast: every connection currently registered for the
conversation group receives the event's frame. -/
def deliver (group : List Nat) (e : GroupEvent) : List (Nat × OutFrame) :=
  group.map (fun conn => (conn, frameOfEvent e))

/-- Model of `ChatConsumer.handle_read_receipt` (`chat/consumers.py:101-115`):
marks the message read (best effort) and then — regardless of whether any
message was found — broadcasts a `read_receipt` event to the group. -/
def handle_read_receipt (sess : Session) (message_id now : Nat) (db : DB) :
    DB × List GroupEvent :=
  let r := mark_message_as_read sess message_id now db
  (r.1, [GroupEvent.readReceipt message_id sess.user.id now])

/-- Model of `ChatConsumer.handle_typing` plus `update_typing_indicator`
(`chat/consumers.py:85-99`, `:199-209`): upserts the
`TypingIndicator(conversation, user)` row and broadcasts a typing event.
A missing conversation raises (uncaught). -/
def handle_typing (sess : Session) (is_typing : Bool) (now : Nat) (db : DB) :
    Except String (DB × List GroupEvent) :=
  match db.findConversation sess.conversation_id with
  | none => .error "Conversation.DoesNotExist"
  | some conversation =>
    let row : TypingRow :=
      { conversation := conversation.id, user := sess.user.id,
        is_typing := is_typing, last_typing_at := now }
    let others := db.typing.filter
      (fun (t : TypingRow) => decide (¬(t.conversation = conversation.id ∧ t.user = sess.user.id)))
    .ok ({ db with typing := row :: others },
         [GroupEvent.typingIndicator sess.conversation_id sess.user.id is_typing
            (sess.user.first_name ++ " " ++ sess.user.last_name)])

/-! ### Connection lifecycle (`connect`) -/

/-- Everything `ChatConsumer.connect` (`chat/consumers.py:10-39`) can do:
the close code chosen (if any), whether the socket was accepted, the group
joined (connection registered), the resulting store/cache, and the frames
written to the socket. -/
structure ConnectOutcome where
  close_code : Option Nat
  accepted : Bool
  joined_group : Option String
  db : DB
  cache : Cache
  sent : List OutFrame
deriving DecidableEq, Repr

/-- Model of `ChatConsumer.verify_conversation_access` (`chat/consumers.py:140-146`):
the conversation exists and `self.user` is one of
`conversation.recruiter.user`, `conversation.job_seeker.user`. -/
def verify_conversation_access (db : DB) (uid cid : Nat) : Bool :=
  match db.findConversation cid with
  | some c => decide (uid = c.recruiter.user.id ∨ uid = c.job_seeker.user.id)
  | none => false

/-- Model of `ChatConsumer.connect` (`chat/consumers.py:10-39`).  Anonymous users
are closed with 4001 before anything else; non-participants with 4003
before any presence/registry effect; otherwise the user is marked online,
the connection joins the conversation group, is accepted, and the
`connected` confirmation frame is sent. -/
def connect (ident : Option CustomUser) (cid now : Nat) (db : DB) (cache : Cache) :
    ConnectOutcome :=
  match ident with
  | none =>
    { close_code := some 4001, accepted := false, joined_group := none,
      db := db, cache := cache, sent := [] }
  | some u =>
    if verify_conversation_access db u.id cid then
      let r := set_user_online { user := u, conversation_id := cid } true now db cache
      { close_code := none, accepted := true,
        joined_group := some ("chat_" ++ toString cid),
        db := r.1, cache := r.2,
        sent := [.connected "WebSocket connected successfully"] }
    else
      { close_code := some 4003, accepted := false, joined_group := none,
        db := db, cache := cache, sent := [] }

/-! ### Inbound frame dispatch (`receive`) -/

/-- The JSON value domain (`json.loads` output). -/
inductive Json where
  | null
  | bool (b : Bool)
  | num (n : Int)
  | str (s : String)
  | arr (xs : List Json)
  | obj (fields : List (String × Json))

/-- Model of `dict.get(key)` on the field list of a JSON object. -/
def lookupField (fields : List (String × Json)) (key : String) : Option Json :=
  match fields.find? (fun kv => decide (kv.1 = key)) with
  | some kv => some kv.2
  | none => none

/-- Model of `data.get('type')` (`chat/consumers.py:53`): only a dict has `.get`;
on any other JSON value the attribute access raises `AttributeError`,
which `receive` does not catch (only `json.JSONDecodeError` is). -/
def jsonGetType : Json → Except String (Option Json)
  | .obj fields => .ok (lookupField fields "type")
  | _ => .error "AttributeError"

/-- The observable result of one `ChatConsumer.receive` call: the stores
afterwards, the group events broadcast, the frames written back to this
socket, and — when a Python exception escapes `receive` — its name
(`uncaught ≠ none` terminates the consumer, so the connection does not
stay open). -/
structure ReceiveOutcome where
  db : DB
  cache : Cache
  broadcasts : List GroupEvent
  sent : List OutFrame
  uncaught : Option String
deriving DecidableEq, Repr

/-- The soft-drop result: nothing changed, nothing sent, no exception. -/
def noopOutcome (db : DB) (cache : Cache) : ReceiveOutcome :=
  { db := db, cache := cache, broadcasts := [], sent := [], uncaught := none }

/-- Model of `ChatConsumer.receive` (`chat/consumers.py:50-64`) together with the
frame handlers it dispatches to.  `parsed` is the `json.loads` result:
`none` stands for malformed input (`json.JSONDecodeError`, caught and
dropped).  Unknown or missing `type` falls through every `elif` — a silent
drop.  In `handle_message`, non-string `content` values (absent → `None`,
etc.) fail at the `Message` insert; in `handle_typing`/`handle_read_receipt`
non-conforming payloads likewise surface as raised errors — the claims
exercise only the well-formed shapes. -/
def receive (sess : Session) (now : Nat) (db : DB) (cache : Cache)
    (parsed : Option Json) : ReceiveOutcome :=
  match parsed with
  | none => noopOutcome db cache
  | some data =>
    match jsonGetType data with
    | .error e => { noopOutcome db cache with uncaught := some e }
    | .ok ty =>
      match ty with
      | some (.str s) =>
        if s = "ping" then
          { noopOutcome db cache with sent := [.pong now] }
        else if s = "message" then
          match data with
          | .obj fields =>
            let mtypeJson := (lookupField fields "message_type").getD (.str "text")
            match lookupField fields "content", mtypeJson with
            | some (.str content), .str mtype =>
              match save_message sess content mtype now db with
              | .ok (db', message) =>
                match serialize_message sess cache now db' message with
                | .ok payload =>
                  { db := db', cache := cache,
                    broadcasts := [GroupEvent.chatMessage payload],
                    sent := [], uncaught := none }
                | .error e =>
                  { db := db', cache := cache, broadcasts := [], sent := [],
                    uncaught := some e }
              | .error e => { noopOutcome db cache with uncaught := some e }
            | _, _ => { noopOutcome db cache with uncaught := some "DataError" }
          | _ => { noopOutcome db cache with uncaught := some "AttributeError" }
        else if s = "typing" then
          match data with
          | .obj fields =>
            let tyJson := (lookupField fields "is_typing").getD (.bool false)
            match tyJson with
            | .bool b =>
              match handle_typing sess b now db with
              | .ok (db', evs) =>
                { db := db', cache := cache, broadcasts := evs, sent := [],
                  uncaught := none }
              | .error e => { noopOutcome db cache with uncaught := some e }
            | _ => { noopOutcome db cache with uncaught := some "DataError" }
          | _ => { noopOutcome db cache with uncaught := some "AttributeError" }
        else if s = "read_receipt" then
          match data with
          | .obj fields =>
            match lookupField fields "message_id" with
            | some (.num (Int.ofNat mid)) =>
              let r := handle_read_receipt sess mid now db
              { db := r.1, cache := cache, broadcasts := r.2, sent := [],
                uncaught := none }
            | _ => { noopOutcome db cache with uncaught := some "DataError" }
          | _ => { noopOutcome db cache with uncaught := some "AttributeError" }
        else
          noopOutcome db cache
      | _ => noopOutcome db cache

/-! ### Bulk mark-all-read (`ConversationViewSet.mark_read`) -/

/-- The REST request user: `hasattr(user, 'recruiter')` /
`hasattr(user, 'seeker_profile')` become the two optional profiles. -/
structure ViewUser where
  user : CustomUser
  recruiterProfile : Option Recruiter
  seekerProfile : Option JobSeeker
deriving DecidableEq, Repr

/-- HTTP-level result of the `mark_read` action. -/
inductive ViewResponse where
  | success (updated_count conversation_id read_at : Nat)
  | forbidden
  | notFound
deriving DecidableEq, Repr

/-- The filter of `chat/views.py:128-132`: messages of the conversation
addressed to the user with `status` in `['sent', 'delivered']`. -/
def unreadForUser (cid uid : Nat) (m : Message) : Bool :=
  decide (m.conversation = cid ∧ m.receiver.id = uid ∧
    (m.status = .sent ∨ m.status = .delivered))

/-- Model of `ConversationViewSet.mark_read` (`chat/views.py:104-172`): permission
check against the matching profile, then every filtered message gets
`status='read'`/`read_at=now`, and the invoker's side of the unread counter
is reset to exactly 0. -/
def conversation_mark_read (vu : ViewUser) (cid now : Nat) (db : DB) :
    DB × ViewResponse :=
  match db.findConversation cid with
  | none => (db, .notFound)
  | some conversation =>
    if (match vu.recruiterProfile with
        | some r => decide (r.id ≠ conversation.recruiter.id)
        | none => false) then
      (db, .forbidden)
    else if (match vu.seekerProfile with
        | some s => decide (s.id ≠ conversation.job_seeker.id)
        | none => false) then
      (db, .forbidden)
    else
      let msgs' := db.messages.map (fun (m : Message) =>
        if unreadForUser cid vu.user.id m then
          { m with status := .read, read_at := some now }
        else m)
      let updated := (db.messages.filter (unreadForUser cid vu.user.id)).length
      let conversation' :=
        if (match vu.recruiterProfile with
            | some r => decide (r.id = conversation.recruiter.id)
            | none => false) then
          { conversation with unread_by_recruiter := 0 }
        else if (match vu.seekerProfile with
            | some s => decide (s.id = conversation.job_seeker.id)
            | none => false) then
          { conversation with unread_by_job_seeker := 0 }
        else conversation
      (({ db with messages := msgs' }).saveConversation conversation conversation',
       .success updated cid now)

/-! ### Operation sequences of the messaging core -/

/-- The three operations of the messaging core that touch unread counters:
a `message` frame, a single `read_receipt`, and the REST bulk mark-read. -/
inductive ChatOp where
  | send (sess : Session) (content mtype : String) (now : Nat)
  | receipt (sess : Session) (message_id now : Nat)
  | markAll (vu : ViewUser) (cid now : Nat)

/-- Apply one operation to the store (a failed `send` — missing
conversation — raises before any write, leaving the store unchanged). -/
def applyOp (db : DB) : ChatOp → DB
  | .send sess content mtype now =>
    match save_message sess content mtype now db with
    | .ok r => r.1
    | .error _ => db
  | .receipt sess mid now => (mark_message_as_read sess mid now db).1
  | .markAll vu cid now => (conversation_mark_read vu cid now db).1

/-- Both unread counters of every conversation are non-negative. -/
def DB.countersNonneg (db : DB) : Prop :=
  ∀ c ∈ db.conversations, 0 ≤ c.unread_by_recruiter ∧ 0 ≤ c.unread_by_job_seeker

/-- A store holding one freshly created conversation (model defaults:
both counters 0) and no messages. -/
def freshDB (cid : Nat) (r : Recruiter) (s : JobSeeker) (us : List CustomUser) : DB :=
  { users := us, conversations := [mkConversation cid r s],
    messages := [], attachments := [], typing := [] }

/-! ### Concrete fixtures used by witnesses and counterexamples -/

def uRec : CustomUser :=
  { id := 1, email := "r@x.io", first_name := "Rita", last_name := "Rec",
    last_activity := none, is_online := false }

def uSeek : CustomUser :=
  { id := 2, email := "s@x.io", first_name := "Sam", last_name := "Seek",
    last_activity := none, is_online := false }

def uOut : CustomUser :=
  { id := 3, email := "o@x.io", first_name := "Olu", last_name := "Out",
    last_activity := none, is_online := false }

def recR : Recruiter := { id := 11, user := uRec }

def seekS : JobSeeker := { id := 12, user := uSeek }

/-- Conversation 7 between `recR` and `seekS`, with two messages still
unread by the job seeker. -/
def convRS : Conversation :=
  { id := 7, recruiter := recR, job_seeker := seekS, last_message_at := none,
    unread_by_recruiter := 0, unread_by_job_seeker := 2 }

/-- A message to the job seeker that has already been read. -/
def msgRead : Message :=
  { id := 10, conversation := 7, sender := uRec, receiver := uSeek,
    content := "hello", message_type := "text", status := .read,
    created_at := 1, read_at := some 5 }

/-- A message to the job seeker still in `delivered`. -/
def msgDelivered : Message :=
  { id := 20, conversation := 7, sender := uRec, receiver := uSeek,
    content := "ping me", message_type := "text", status := .delivered,
    created_at := 2, read_at := none }

/-- A second undelivered message to the job seeker, still in `sent`. -/
def msgSent : Message :=
  { id := 21, conversation := 7, sender := uRec, receiver := uSeek,
    content := "again", message_type := "text", status := .sent,
    created_at := 3, read_at := none }

def dbFix : DB :=
  { users := [uRec, uSeek], conversations := [convRS],
    messages := [msgRead, msgDelivered, msgSent], attachments := [], typing := [] }

def sessSeek : Session := { user := uSeek, conversation_id := 7 }

def sessRec : Session := { user := uRec, conversation_id := 7 }

/-! ### Helper lemmas -/

/-- Replacing the found conversation row (same pk) is what a subsequent
lookup returns. -/
theorem findConv_replace (l : List Conversation) (cid : Nat) (c c' : Conversation)
    (hid : c'.id = cid)
    (h : l.find? (fun x => decide (x.id = cid)) = some c) :
    (l.map (fun x => if x.id = c.id then c' else x)).find?
      (fun x => decide (x.id = cid)) = some c' := by
  have hcid : c.id = cid := by simpa using List.find?_some h
  induction l with
  | nil => simp at h
  | cons a l ih =>
    by_cases ha : a.id = cid
    · rw [List.find?_cons_of_pos _ (by simpa using ha)] at h
      have hac : a = c := by simpa using h
      subst hac
      simp only [List.map_cons, if_pos rfl]
      exact List.find?_cons_of_pos _ (by simpa using hid)
    · rw [List.find?_cons_of_neg _ (by simpa using ha)] at h
      have ha' : ¬ a.id = c.id := fun hh => ha (hcid ▸ hh)
      simp only [List.map_cons, if_neg ha']
      rw [List.find?_cons_of_neg _ (by simpa using ha)]
      exact ih h

/-- Reading `cache.get` of a key just set: present with the stored value exactly
until the expiry instant. -/
theorem Cache.get_set_self (c : Cache) (k v : String) (now timeout t : Nat) :
    (c.set k v now timeout).get k t = if t < now + timeout then some v else none := by
  simp [Cache.set, Cache.get, List.find?_cons_of_pos]

/-- After deleting a key, `get` of that key is `none`. -/
theorem Cache.get_delete_self (c : Cache) (k : String) (t : Nat) :
    (c.delete k).get k t = none := by
  have h : ∀ l : List CacheEntry,
      (l.filter (fun e => decide (e.key ≠ k))).find? (fun e => decide (e.key = k)) = none := by
    intro l
    induction l with
    | nil => simp
    | cons a l ih =>
      simp only [List.filter_cons]
      by_cases ha : a.key = k
      · rw [if_neg (by simp [ha])]
        exact ih
      · rw [if_pos (by simp [ha]), List.find?_cons_of_neg _ (by simpa using ha)]
        exact ih
  simp only [Cache.delete, Cache.get]
  rw [h c.entries]

/-- Filtering out the entries of key `k` does not change the raw lookup of
any other key. -/
theorem filter_out_key_rawLookup (l : List CacheEntry) (k k' : String) (h : k' ≠ k) :
    (l.filter (fun e => decide (e.key ≠ k))).find? (fun e => decide (e.key = k')) =
      l.find? (fun e => decide (e.key = k')) := by
  induction l with
  | nil => simp
  | cons a l ih =>
    simp only [List.filter_cons]
    by_cases hak : a.key = k
    · have ha' : ¬ a.key = k' := fun hh => h (by rw [← hh, hak])
      rw [if_neg (by simp [hak]), List.find?_cons_of_neg _ (by simpa using ha')]
      exact ih
    · rw [if_pos (by simp [hak])]
      by_cases ha : a.key = k'
      · rw [List.find?_cons_of_pos _ (by simpa using ha),
            List.find?_cons_of_pos _ (by simpa using ha)]
      · rw [List.find?_cons_of_neg _ (by simpa using ha),
            List.find?_cons_of_neg _ (by simpa using ha)]
        exact ih

/-- Lemma: `cache.set` of key `k` leaves every other key's raw entry unchanged. -/
theorem Cache.rawLookup_set_ne (c : Cache) (k v : String) (now timeout : Nat)
    (k' : String) (h : k' ≠ k) :
    (c.set k v now timeout).rawLookup k' = c.rawLookup k' := by
  show (List.find? _ _) = _
  rw [show (c.set k v now timeout).entries =
      { key := k, val := v, expires_at := now + timeout } ::
        c.entries.filter (fun e => decide (e.key ≠ k)) from rfl]
  rw [List.find?_cons_of_neg _ (by simpa using fun hh => h hh.symm)]
  exact filter_out_key_rawLookup c.entries k k' h

/-- Lemma: `cache.delete` of key `k` leaves every other key's raw entry unchanged. -/
theorem Cache.rawLookup_delete_ne (c : Cache) (k k' : String) (h : k' ≠ k) :
    (c.delete k).rawLookup k' = c.rawLookup k' :=
  filter_out_key_rawLookup c.entries k k' h

/-- Lemma: `set_user_online` never changes any user row: the `last_seen` write
always raises and is swallowed. -/
theorem set_user_online_users_unchanged (sess : Session) (b : Bool) (now : Nat)
    (db : DB) (cache : Cache) :
    (set_user_online sess b now db cache).1 = db := by
  show (match db.users.find? _ with
        | none => db
        | some u => match saveUserUpdateFields db u ["last_seen"] with
                    | .ok d => d
                    | .error _ => db) = db
  cases h : db.users.find? (fun u => decide (u.id = sess.user.id)) with
  | none => rfl
  | some u =>
    have : saveUserUpdateFields db u ["last_seen"] =
        .error "ValueError: update_fields names a field that does not exist on CustomUser" := by
      simp [saveUserUpdateFields, customUserConcreteFields]
    simp [this]

/-! ### Claim theorems -/

/-- C3: the claim asserts the broadcast payload of any persisted message
agrees with the record on `content`, `message_type` and the attachment
list.  The code cannot produce that payload at all: `serialize_message`
reads `message.message_attachments`, but the reverse manager is named
`attachments` (`chat/models.py:237`), so for every message — any sender,
any cache, any attachment set — the serialization raises `AttributeError`
and no broadcast payload exists. -/
theorem serialize_message_always_raises (sess : Session) (cache : Cache) (now : Nat)
    (db : DB) (m : Message) :
    serialize_message sess cache now db m =
      .error "AttributeError: Message object has no attribute message_attachments" := by
  unfold serialize_message messageRelatedAttr
  rw [if_neg (by decide)]

/-- C10: every call of the session's online/offline marking leaves the
persisted user rows completely unchanged (the `last_seen` save always
raises `ValueError`, which is swallowed), and the only cache entry it can
touch is the presence marker of that user's id. -/
theorem set_user_online_only_touches_presence (sess : Session) (b : Bool) (now : Nat)
    (db : DB) (cache : Cache) :
    (set_user_online sess b now db cache).1 = db ∧
    (∀ k, k ≠ userOnlineKey sess.user.id →
      ((set_user_online sess b now db cache).2).rawLookup k = cache.rawLookup k) ∧
    (∀ u, saveUserUpdateFields db u ["last_seen"] =
      .error "ValueError: update_fields names a field that does not exist on CustomUser") := by
  refine ⟨set_user_online_users_unchanged sess b now db cache, ?_, ?_⟩
  · intro k hk
    cases b with
    | true =>
      exact Cache.rawLookup_set_ne cache (userOnlineKey sess.user.id)
        (toString now) now 300 k hk
    | false =>
      exact Cache.rawLookup_delete_ne cache (userOnlineKey sess.user.id) k hk
  · intro u
    simp [saveUserUpdateFields, customUserConcreteFields]

/-- Witness for C10 at a concrete session, store and cache key. -/
theorem set_user_online_only_touches_presence_witness :
    ("x" ≠ userOnlineKey 2) ∧
    ((set_user_online sessSeek true 0 dbFix Cache.empty).2.rawLookup "x" =
      Cache.empty.rawLookup "x") :=
  ⟨by decide,
   (set_user_online_only_touches_presence sessSeek true 0 dbFix Cache.empty).2.1 "x"
     (by decide)⟩

/-- C5: an anonymous connection attempt is closed with 4001 before any
other effect, and a connection attempt by a user who is neither
`recruiter(C).user` nor `job_seeker(C).user` (including when the
conversation does not exist) is closed with 4003: never accepted, never
registered in the group, no presence write, no frame sent. -/
theorem connect_access_control (db : DB) (cache : Cache) (cid now : Nat) :
    (connect none cid now db cache =
      { close_code := some 4001, accepted := false, joined_group := none,
        db := db, cache := cache, sent := [] }) ∧
    (∀ (u : CustomUser) (conv : Conversation),
      db.findConversation cid = some conv →
      u.id ≠ conv.recruiter.user.id → u.id ≠ conv.job_seeker.user.id →
      connect (some u) cid now db cache =
        { close_code := some 4003, accepted := false, joined_group := none,
          db := db, cache := cache, sent := [] }) ∧
    (db.findConversation cid = none → ∀ u : CustomUser,
      connect (some u) cid now db cache =
        { close_code := some 4003, accepted := false, joined_group := none,
          db := db, cache := cache, sent := [] }) := by
  refine ⟨rfl, ?_, ?_⟩
  · intro u conv hfind hr hs
    have hv : verify_conversation_access db u.id cid = false := by
      simp [verify_conversation_access, hfind, hr, hs]
    simp [connect, hv]
  · intro hnone u
    have hv : verify_conversation_access db u.id cid = false := by
      simp [verify_conversation_access, hnone]
    simp [connect, hv]

/-- Witness for C5: the outsider `uOut` is refused on conversation 7. -/
theorem connect_access_control_witness :
    (dbFix.findConversation 7 = some convRS ∧ uOut.id ≠ convRS.recruiter.user.id ∧
      uOut.id ≠ convRS.job_seeker.user.id) ∧
    connect (some uOut) 7 0 dbFix Cache.empty =
      { close_code := some 4003, accepted := false, joined_group := none,
        db := dbFix, cache := Cache.empty, sent := [] } :=
  ⟨by decide,
   (connect_access_control dbFix Cache.empty 7 0).2.1 uOut convRS (by decide)
     (by decide) (by decide)⟩

/-- C9: a `read_receipt` frame whose `message_id` matches no existing
message addressed to the connection's user changes neither the messages
nor any conversation counter, yet the `read_receipt` event is still
broadcast, and group delivery hands the corresponding frame to every
registered connection. -/
theorem read_receipt_unknown_message (sess : Session) (mid now : Nat) (db : DB)
    (group : List Nat)
    (h : ∀ m ∈ db.messages, ¬ (m.id = mid ∧ m.receiver.id = sess.user.id)) :
    handle_read_receipt sess mid now db =
      (db, [GroupEvent.readReceipt mid sess.user.id now]) ∧
    deliver group (GroupEvent.readReceipt mid sess.user.id now) =
      group.map (fun conn => (conn, OutFrame.readReceipt mid sess.user.id now)) := by
  constructor
  · have hfind : db.messages.find?
        (fun (m : Message) => decide (m.id = mid ∧ m.receiver.id = sess.user.id)) = none := by
      rw [List.find?_eq_none]
      intro m hm
      simpa using h m hm
    unfold handle_read_receipt mark_message_as_read
    rw [hfind]
  · rfl

/-- Witness for C9: receipt for the unknown message id 99. -/
theorem read_receipt_unknown_message_witness :
    (∀ m ∈ dbFix.messages, ¬ (m.id = 99 ∧ m.receiver.id = sessSeek.user.id)) ∧
    handle_read_receipt sessSeek 99 0 dbFix =
      (dbFix, [GroupEvent.readReceipt 99 2 0]) :=
  ⟨by decide,
   (read_receipt_unknown_message sessSeek 99 0 dbFix [5, 6] (by decide)).1⟩

/-- C1: when a participant sends a `message` frame, `save_message`
persists a `Message` with status `delivered` to the other participant,
updates the conversation's `last_message_at`, increments the receiver's
unread counter by exactly 1, and leaves the sender's own counter
unchanged. -/
theorem message_send_increments_receiver_only
    (sess : Session) (conv : Conversation) (content mtype : String) (now : Nat) (db : DB)
    (hfind : db.findConversation sess.conversation_id = some conv)
    (hpart : sess.user.id = conv.recruiter.user.id ∨ sess.user.id = conv.job_seeker.user.id)
    (hdist : conv.recruiter.user.id ≠ conv.job_seeker.user.id) :
    ∃ db' msg, save_message sess content mtype now db = .ok (db', msg) ∧
      msg.status = .delivered ∧
      msg.sender = sess.user ∧
      msg.receiver.id = otherParticipantId conv sess.user.id ∧
      msg ∈ db'.messages ∧
      ∃ conv', db'.findConversation sess.conversation_id = some conv' ∧
        conv'.last_message_at = some now ∧
        conv'.unreadFor msg.receiver.id = conv.unreadFor msg.receiver.id + 1 ∧
        conv'.unreadFor sess.user.id = conv.unreadFor sess.user.id := by
  have hcid : conv.id = sess.conversation_id := by simpa using List.find?_some hfind
  rcases hpart with hR | hS
  · -- the sender is the recruiter's user; the receiver is the job seeker's user
    have hne : conv.job_seeker.user.id = conv.recruiter.user.id ↔ False :=
      iff_false_intro (fun hh => hdist hh.symm)
    simp only [save_message, hfind, hR, hne, eq_self_iff_true, if_true, if_false,
      ite_true, ite_false]
    refine ⟨_, _, rfl, ?_, ?_, ?_, ?_, ?_⟩
    · rfl
    · rfl
    · simp [otherParticipantId, hR]
    · exact List.mem_append_right _ (by simp)
    · refine ⟨{ conv with last_message_at := some now, unread_by_job_seeker := conv.unread_by_job_seeker + 1 }, ?_, ?_, ?_, ?_⟩
      · show (db.conversations.map _).find? _ = _
        exact findConv_replace db.conversations sess.conversation_id conv _ hcid hfind
      · rfl
      · simp [Conversation.unreadFor, hne]
      · simp [Conversation.unreadFor, hR]
  · -- the sender is the job seeker's user; the receiver is the recruiter's user
    have hsne : sess.user.id = conv.recruiter.user.id ↔ False :=
      iff_false_intro (fun hh => hdist (hh ▸ hS))
    simp only [save_message, hfind, hsne, eq_self_iff_true, if_true, if_false,
      ite_true, ite_false]
    refine ⟨_, _, rfl, ?_, ?_, ?_, ?_, ?_⟩
    · rfl
    · rfl
    · simp [otherParticipantId, hsne]
    · exact List.mem_append_right _ (by simp)
    · refine ⟨{ conv with last_message_at := some now, unread_by_recruiter := conv.unread_by_recruiter + 1 }, ?_, ?_, ?_, ?_⟩
      · show (db.conversations.map _).find? _ = _
        exact findConv_replace db.conversations sess.conversation_id conv _ hcid hfind
      · rfl
      · simp [Conversation.unreadFor]
      · have hne2 : conv.job_seeker.user.id = conv.recruiter.user.id ↔ False :=
          iff_false_intro (fun hh => hdist hh.symm)
        simp [Conversation.unreadFor, hS, hne2]

/-- Witness for C1: the recruiter sends "hi" on conversation 7. -/
theorem message_send_increments_receiver_only_witness :
    (dbFix.findConversation sessRec.conversation_id = some convRS ∧
      (sessRec.user.id = convRS.recruiter.user.id ∨
        sessRec.user.id = convRS.job_seeker.user.id) ∧
      convRS.recruiter.user.id ≠ convRS.job_seeker.user.id) ∧
    (∃ db' msg, save_message sessRec "hi" "text" 9 dbFix = .ok (db', msg) ∧
      msg.status = .delivered ∧
      msg.sender = sessRec.user ∧
      msg.receiver.id = otherParticipantId convRS sessRec.user.id ∧
      msg ∈ db'.messages ∧
      ∃ conv', db'.findConversation sessRec.conversation_id = some conv' ∧
        conv'.last_message_at = some 9 ∧
        conv'.unreadFor msg.receiver.id = convRS.unreadFor msg.receiver.id + 1 ∧
        conv'.unreadFor sessRec.user.id = convRS.unreadFor sessRec.user.id) :=
  ⟨by decide,
   message_send_increments_receiver_only sessRec convRS "hi" "text" 9 dbFix
     (by decide) (by decide) (by decide)⟩

/-- Characterization of `mark_message_as_read` when the message is found
and its conversation exists. -/
theorem mark_message_as_read_found (sess : Session) (mid now : Nat) (db : DB)
    (msg : Message) (conv : Conversation)
    (hfind : db.messages.find?
      (fun (m : Message) => decide (m.id = mid ∧ m.receiver.id = sess.user.id)) = some msg)
    (hconv : db.findConversation msg.conversation = some conv) :
    mark_message_as_read sess mid now db =
      (DB.saveConversation { db with messages := db.messages.map (fun (m : Message) => if m.id = msg.id then msg.mark_as_read now else m) } conv (if sess.user.id = conv.recruiter.user.id then { conv with unread_by_recruiter := max 0 (conv.unread_by_recruiter - 1) } else { conv with unread_by_job_seeker := max 0 (conv.unread_by_job_seeker - 1) }), some (msg.mark_as_read now)) := by
  have hconv2 : ({ db with messages := db.messages.map (fun (m : Message) => if m.id = msg.id then msg.mark_as_read now else m) } : DB).findConversation msg.conversation = some conv := hconv
  by_cases hP : sess.user.id = conv.recruiter.user.id
  · simp only [mark_message_as_read, hfind, hconv2, if_pos hP]
  · simp only [mark_message_as_read, hfind, hconv2, if_neg hP]

/-- C2 counterexample: message 10 is already read (`read_at = some 5`),
yet processing a second `read_receipt` for it decrements the job seeker's
unread counter of conversation 7 from 2 to 1 — the claimed no-op does not
hold on the counter. -/
theorem second_receipt_decrements_counter_again :
    (msgRead.status = .read ∧ msgRead.read_at = some 5 ∧ msgRead ∈ dbFix.messages ∧
      dbFix.findConversation 7 = some convRS ∧ convRS.unread_by_job_seeker = 2) ∧
    (mark_message_as_read sessSeek 10 20 dbFix).1 =
      { dbFix with conversations := [{ convRS with unread_by_job_seeker := 1 }] } ∧
    (mark_message_as_read sessSeek 10 20 dbFix).2 = some msgRead := by
  decide

/-- C2 amended: a second `read_receipt` for an already-read message M from
M's receiver leaves M (status, `read_at`) and the whole message table
unchanged, but — because `Message.mark_as_read` does not report whether a
transition occurred and the consumer decrements unconditionally — the
receiver's unread counter is decremented again, floored at 0 (so it is a
counter no-op only when the counter is already 0). -/
theorem second_receipt_idempotent_on_message_not_counter
    (sess : Session) (db : DB) (conv : Conversation) (msg : Message) (mid now t : Nat)
    (hfind : db.messages.find?
      (fun (m : Message) => decide (m.id = mid ∧ m.receiver.id = sess.user.id)) = some msg)
    (hread : msg.read_at = some t)
    (hconv : db.findConversation msg.conversation = some conv)
    (huniq : ∀ m ∈ db.messages, m.id = msg.id → m = msg) :
    (mark_message_as_read sess mid now db).2 = some msg ∧
    (mark_message_as_read sess mid now db).1.messages = db.messages ∧
    ∃ conv', (mark_message_as_read sess mid now db).1.findConversation msg.conversation =
        some conv' ∧
      (sess.user.id = conv.recruiter.user.id →
        conv'.unread_by_recruiter = max 0 (conv.unread_by_recruiter - 1) ∧
        conv'.unread_by_job_seeker = conv.unread_by_job_seeker) ∧
      (sess.user.id ≠ conv.recruiter.user.id →
        conv'.unread_by_job_seeker = max 0 (conv.unread_by_job_seeker - 1) ∧
        conv'.unread_by_recruiter = conv.unread_by_recruiter) := by
  have hmm : msg.mark_as_read now = msg := by
    simp [Message.mark_as_read, hread]
  have hkey := mark_message_as_read_found sess mid now db msg conv hfind hconv
  rw [hmm] at hkey
  have hmap : db.messages.map (fun (m : Message) => if m.id = msg.id then msg else m) =
      db.messages := by
    have h1 : ∀ m ∈ db.messages,
        (fun (m : Message) => if m.id = msg.id then msg else m) m = id m := by
      intro m hm
      by_cases hmid : m.id = msg.id
      · simp [hmid, (huniq m hm hmid).symm]
      · simp [hmid]
    rw [List.map_congr_left h1, List.map_id]
  have hcid : conv.id = msg.conversation := by simpa using List.find?_some hconv
  rw [hkey]
  refine ⟨rfl, ?_, ?_⟩
  · show (db.messages.map _) = db.messages
    rw [hmap]
  · by_cases hP : sess.user.id = conv.recruiter.user.id
    · refine ⟨{ conv with unread_by_recruiter := max 0 (conv.unread_by_recruiter - 1) }, ?_, ?_, ?_⟩
      · rw [if_pos hP]
        show (db.conversations.map _).find? _ = _
        exact findConv_replace db.conversations msg.conversation conv _ hcid hconv
      · intro _; exact ⟨rfl, rfl⟩
      · intro hcon; exact absurd hP hcon
    · refine ⟨{ conv with unread_by_job_seeker := max 0 (conv.unread_by_job_seeker - 1) }, ?_, ?_, ?_⟩
      · rw [if_neg hP]
        show (db.conversations.map _).find? _ = _
        exact findConv_replace db.conversations msg.conversation conv _ hcid hconv
      · intro hcon; exact absurd hcon hP
      · intro _; exact ⟨rfl, rfl⟩

/-- Witness for the amended C2 on conversation 7, message 10. -/
theorem second_receipt_idempotent_on_message_not_counter_witness :
    (dbFix.messages.find?
      (fun (m : Message) => decide (m.id = 10 ∧ m.receiver.id = sessSeek.user.id)) = some msgRead ∧
      msgRead.read_at = some 5 ∧
      dbFix.findConversation msgRead.conversation = some convRS ∧
      (∀ m ∈ dbFix.messages, m.id = msgRead.id → m = msgRead)) ∧
    ((mark_message_as_read sessSeek 10 20 dbFix).2 = some msgRead ∧
     (mark_message_as_read sessSeek 10 20 dbFix).1.messages = dbFix.messages ∧
     ∃ conv', (mark_message_as_read sessSeek 10 20 dbFix).1.findConversation
         msgRead.conversation = some conv' ∧
       (sessSeek.user.id = convRS.recruiter.user.id →
         conv'.unread_by_recruiter = max 0 (convRS.unread_by_recruiter - 1) ∧
         conv'.unread_by_job_seeker = convRS.unread_by_job_seeker) ∧
       (sessSeek.user.id ≠ convRS.recruiter.user.id →
         conv'.unread_by_job_seeker = max 0 (convRS.unread_by_job_seeker - 1) ∧
         conv'.unread_by_recruiter = convRS.unread_by_recruiter)) :=
  ⟨⟨by decide, by decide, by decide, by decide⟩,
   second_receipt_idempotent_on_message_not_counter sessSeek dbFix convRS msgRead 10 20 5
     (by decide) (by decide) (by decide) (by decide)⟩

/-- C4: the bulk mark-read operation invoked by a participant B sets B's
unread counter on the conversation to exactly 0 and sets `status=read`
and `read_at` on every previously-unread message addressed to B (for any
number of such messages, including zero; message statuses of the
messaging core are `sent`, `delivered`, `read`). -/
theorem mark_all_read_resets_counter
    (vu : ViewUser) (conv : Conversation) (cid now : Nat) (db : DB)
    (hfind : db.findConversation cid = some conv)
    (hside : (vu.recruiterProfile = some conv.recruiter ∧ vu.seekerProfile = none ∧
        vu.user.id = conv.recruiter.user.id) ∨
      (vu.recruiterProfile = none ∧ vu.seekerProfile = some conv.job_seeker ∧
        vu.user.id = conv.job_seeker.user.id))
    (hdist : conv.recruiter.user.id ≠ conv.job_seeker.user.id)
    (hcore : ∀ m ∈ db.messages, m.status ≠ MsgStatus.failed) :
    ∃ db' n, conversation_mark_read vu cid now db = (db', .success n cid now) ∧
      (∃ conv', db'.findConversation cid = some conv' ∧ conv'.unreadFor vu.user.id = 0) ∧
      (∀ m ∈ db.messages, m.conversation = cid → m.receiver.id = vu.user.id →
        m.status ≠ MsgStatus.read →
        { m with status := MsgStatus.read, read_at := some now } ∈ db'.messages) := by
  have hcid : conv.id = cid := by simpa using List.find?_some hfind
  have hmem : ∀ m ∈ db.messages, m.conversation = cid → m.receiver.id = vu.user.id →
      m.status ≠ MsgStatus.read →
      { m with status := MsgStatus.read, read_at := some now } ∈
        db.messages.map (fun (m : Message) =>
          if unreadForUser cid vu.user.id m then
            { m with status := MsgStatus.read, read_at := some now }
          else m) := by
    intro m hm h1 h2 h3
    have hsd : m.status = MsgStatus.sent ∨ m.status = MsgStatus.delivered := by
      cases hst : m.status with
      | sent => exact Or.inl rfl
      | delivered => exact Or.inr rfl
      | read => exact absurd hst h3
      | failed => exact absurd hst (hcore m hm)
    have hu : unreadForUser cid vu.user.id m = true := by
      simp [unreadForUser, h1, h2, hsd]
    have heq : (fun (m : Message) =>
        if unreadForUser cid vu.user.id m then
          { m with status := MsgStatus.read, read_at := some now }
        else m) m = { m with status := MsgStatus.read, read_at := some now } := by
      simp [hu]
    exact heq ▸ List.mem_map_of_mem _ hm
  rcases hside with ⟨hrp, hsp, hid⟩ | ⟨hrp, hsp, hid⟩
  · simp only [conversation_mark_read, hfind, hrp, hsp, decide_not, ne_eq,
      eq_self_iff_true, decide_True, Bool.not_true, Bool.not_false,
      if_true, if_false, ite_true, ite_false, Bool.false_eq_true]
    refine ⟨_, _, rfl, ?_, ?_⟩
    · refine ⟨{ conv with unread_by_recruiter := 0 }, ?_, ?_⟩
      · show (db.conversations.map _).find? _ = _
        exact findConv_replace db.conversations cid conv _ hcid hfind
      · simp [Conversation.unreadFor, hid]
    · exact hmem
  · simp only [conversation_mark_read, hfind, hrp, hsp, decide_not, ne_eq,
      eq_self_iff_true, decide_True, Bool.not_true, Bool.not_false,
      if_true, if_false, ite_true, ite_false, Bool.false_eq_true]
    refine ⟨_, _, rfl, ?_, ?_⟩
    · refine ⟨{ conv with unread_by_job_seeker := 0 }, ?_, ?_⟩
      · show (db.conversations.map _).find? _ = _
        exact findConv_replace db.conversations cid conv _ hcid hfind
      · have hne : conv.job_seeker.user.id = conv.recruiter.user.id ↔ False :=
          iff_false_intro (fun hh => hdist hh.symm)
        simp [Conversation.unreadFor, hid, hne]
    · exact hmem

/-- The job seeker as a REST request user. -/
def vuSeek : ViewUser :=
  { user := uSeek, recruiterProfile := none, seekerProfile := some seekS }

/-- Witness for C4: the job seeker bulk-marks conversation 7 (two unread
messages) at time 30. -/
theorem mark_all_read_resets_counter_witness :
    (dbFix.findConversation 7 = some convRS ∧
      (vuSeek.recruiterProfile = some convRS.recruiter ∧ vuSeek.seekerProfile = none ∧
          vuSeek.user.id = convRS.recruiter.user.id ∨
        vuSeek.recruiterProfile = none ∧ vuSeek.seekerProfile = some convRS.job_seeker ∧
          vuSeek.user.id = convRS.job_seeker.user.id) ∧
      convRS.recruiter.user.id ≠ convRS.job_seeker.user.id ∧
      (∀ m ∈ dbFix.messages, m.status ≠ MsgStatus.failed)) ∧
    (∃ db' n, conversation_mark_read vuSeek 7 30 dbFix = (db', .success n 7 30) ∧
      (∃ conv', db'.findConversation 7 = some conv' ∧ conv'.unreadFor vuSeek.user.id = 0) ∧
      (∀ m ∈ dbFix.messages, m.conversation = 7 → m.receiver.id = vuSeek.user.id →
        m.status ≠ MsgStatus.read →
        { m with status := MsgStatus.read, read_at := some 30 } ∈ db'.messages)) :=
  ⟨⟨by decide, by decide, by decide, by decide⟩,
   mark_all_read_resets_counter vuSeek convRS 7 30 dbFix (by decide) (by decide)
     (by decide) (by decide)⟩

/-- A conversation-row replacement preserves the non-negativity invariant
when the new row's counters are non-negative. -/
theorem countersNonneg_saveConversation (db : DB) (c c' : Conversation)
    (h : db.countersNonneg)
    (h' : 0 ≤ c'.unread_by_recruiter ∧ 0 ≤ c'.unread_by_job_seeker) :
    (db.saveConversation c c').countersNonneg := by
  intro x hx
  rcases List.mem_map.mp hx with ⟨y, hy, hxy⟩
  by_cases hyc : y.id = c.id
  · rw [if_pos hyc] at hxy
    rw [← hxy]
    exact h'
  · rw [if_neg hyc] at hxy
    rw [← hxy]
    exact h y hy

theorem save_message_preserves_nonneg (sess : Session) (content mtype : String)
    (now : Nat) (db db' : DB) (msg : Message) (h : db.countersNonneg)
    (hok : save_message sess content mtype now db = .ok (db', msg)) :
    db'.countersNonneg := by
  cases hf : db.findConversation sess.conversation_id with
  | none =>
    unfold save_message at hok
    rw [hf] at hok
    exact absurd hok (by simp)
  | some conv =>
    have hconv := h conv (List.mem_of_find?_eq_some hf)
    unfold save_message at hok
    rw [hf] at hok
    have hok1 := Except.ok.inj hok
    injection hok1 with hdb hmsg
    rw [← hdb]
    apply countersNonneg_saveConversation _ _ _ h
    by_cases hrc : (if sess.user.id = conv.recruiter.user.id then conv.job_seeker.user
        else conv.recruiter.user).id = conv.recruiter.user.id
    · rw [if_pos hrc]
      refine ⟨?_, ?_⟩
      · show 0 ≤ conv.unread_by_recruiter + 1
        have := hconv.1
        omega
      · show 0 ≤ conv.unread_by_job_seeker
        exact hconv.2
    · rw [if_neg hrc]
      refine ⟨?_, ?_⟩
      · show 0 ≤ conv.unread_by_recruiter
        exact hconv.1
      · show 0 ≤ conv.unread_by_job_seeker + 1
        have := hconv.2
        omega

theorem mark_message_as_read_preserves_nonneg (sess : Session) (mid now : Nat)
    (db : DB) (h : db.countersNonneg) :
    ((mark_message_as_read sess mid now db).1).countersNonneg := by
  unfold mark_message_as_read
  cases hf : db.messages.find?
      (fun (m : Message) => decide (m.id = mid ∧ m.receiver.id = sess.user.id)) with
  | none => exact h
  | some msg =>
    dsimp only
    cases hc : ({ db with messages := db.messages.map (fun (m : Message) => if m.id = msg.id then msg.mark_as_read now else m) } : DB).findConversation msg.conversation with
    | none => exact h
    | some conversation =>
      have hconv := h conversation (List.mem_of_find?_eq_some hc)
      apply countersNonneg_saveConversation _ _ _ h
      by_cases hP : sess.user.id = conversation.recruiter.user.id
      · rw [if_pos hP]
        exact ⟨le_max_left 0 _, hconv.2⟩
      · rw [if_neg hP]
        exact ⟨hconv.1, le_max_left 0 _⟩

theorem conversation_mark_read_preserves_nonneg (vu : ViewUser) (cid now : Nat)
    (db : DB) (h : db.countersNonneg) :
    ((conversation_mark_read vu cid now db).1).countersNonneg := by
  unfold conversation_mark_read
  cases hf : db.findConversation cid with
  | none => exact h
  | some conversation =>
    have hconv := h conversation (List.mem_of_find?_eq_some hf)
    dsimp only
    by_cases h1 : (match vu.recruiterProfile with
        | some r => decide (r.id ≠ conversation.recruiter.id)
        | none => false) = true
    · rw [if_pos h1]
      exact h
    · rw [if_neg h1]
      by_cases h2 : (match vu.seekerProfile with
          | some s => decide (s.id ≠ conversation.job_seeker.id)
          | none => false) = true
      · rw [if_pos h2]
        exact h
      · rw [if_neg h2]
        dsimp only
        apply countersNonneg_saveConversation _ _ _ h
        by_cases h3 : (match vu.recruiterProfile with
            | some r => decide (r.id = conversation.recruiter.id)
            | none => false) = true
        · rw [if_pos h3]
          exact ⟨le_refl 0, hconv.2⟩
        · rw [if_neg h3]
          by_cases h4 : (match vu.seekerProfile with
              | some s => decide (s.id = conversation.job_seeker.id)
              | none => false) = true
          · rw [if_pos h4]
            exact ⟨hconv.1, le_refl 0⟩
          · rw [if_neg h4]
            exact hconv

theorem applyOp_preserves_nonneg (db : DB) (op : ChatOp) (h : db.countersNonneg) :
    (applyOp db op).countersNonneg := by
  cases op with
  | send sess content mtype now =>
    simp only [applyOp]
    cases hok : save_message sess content mtype now db with
    | ok r =>
      obtain ⟨db', msg⟩ := r
      exact save_message_preserves_nonneg sess content mtype now db db' msg h hok
    | error e => exact h
  | receipt sess mid now => exact mark_message_as_read_preserves_nonneg sess mid now db h
  | markAll vu cid now => exact conversation_mark_read_preserves_nonneg vu cid now db h

theorem foldl_applyOp_nonneg (ops : List ChatOp) (db : DB) (h : db.countersNonneg) :
    (ops.foldl applyOp db).countersNonneg := by
  induction ops generalizing db with
  | nil => exact h
  | cons op ops ih => exact ih _ (applyOp_preserves_nonneg db op h)

/-- C6: starting from a freshly created conversation (both counters 0),
after any sequence of messaging-core operations — message sends, single
read receipts (whose decrement is floored at 0 by `max`), and bulk
mark-all-reads — every conversation's unread counters are still ≥ 0. -/
theorem unread_counters_nonneg (cid : Nat) (r : Recruiter) (s : JobSeeker)
    (us : List CustomUser) (ops : List ChatOp) :
    (ops.foldl applyOp (freshDB cid r s us)).countersNonneg := by
  apply foldl_applyOp_nonneg
  intro c hc
  have hc' := List.mem_singleton.mp hc
  rw [hc']
  exact ⟨le_refl 0, le_refl 0⟩

/-- Witness for C6: a receipt on message 10 right after creation (counter
at 0, the decrement floors at 0). -/
theorem unread_counters_nonneg_witness :
    (List.foldl applyOp (freshDB 7 recR seekS [uRec, uSeek])
      [ChatOp.send sessRec "hi" "text" 1, ChatOp.receipt sessSeek 1 2,
       ChatOp.receipt sessSeek 1 3]).countersNonneg :=
  unread_counters_nonneg 7 recR seekS [uRec, uSeek]
    [ChatOp.send sessRec "hi" "text" 1, ChatOp.receipt sessSeek 1 2,
     ChatOp.receipt sessSeek 1 3]

/-- C7 counterexample: `[]` is valid JSON whose `type` is not one of
`ping`/`message`/`typing`/`read_receipt`, yet it is not soft-dropped:
`data.get('type')` on a non-dict raises `AttributeError`, which `receive`
does not catch (only `json.JSONDecodeError` is), so the exception escapes
the handler instead of the frame being dropped with the connection open. -/
theorem nonobject_json_frame_raises :
    receive sessSeek 0 dbFix Cache.empty (some (Json.arr [])) =
      { db := dbFix, cache := Cache.empty, broadcasts := [], sent := [],
        uncaught := some "AttributeError" } ∧
    some "AttributeError" ≠ (none : Option String) := by
  exact ⟨rfl, by decide⟩

/-- C7 amended: a frame that is not valid JSON, and a JSON **object** frame
whose `type` is missing or not one of the four handled kinds, is dropped:
no store change, no broadcast, nothing sent, no exception (connection stays
open).  A valid-JSON frame that is not an object instead raises an uncaught
`AttributeError` (from `.get` on a non-dict) with no store change and no
broadcast — that path is not the soft drop the claim describes. -/
theorem receive_soft_drop (sess : Session) (now : Nat) (db : DB) (cache : Cache) :
    (receive sess now db cache none = noopOutcome db cache) ∧
    (∀ fields, (∀ s : String, lookupField fields "type" = some (Json.str s) →
        ¬ s ∈ ["ping", "message", "typing", "read_receipt"]) →
      receive sess now db cache (some (Json.obj fields)) = noopOutcome db cache) ∧
    (∀ j : Json, (∀ fields, j ≠ Json.obj fields) →
      receive sess now db cache (some j) =
        { noopOutcome db cache with uncaught := some "AttributeError" }) := by
  refine ⟨rfl, ?_, ?_⟩
  · intro fields hty
    cases hl : lookupField fields "type" with
    | none => simp [receive, jsonGetType, hl]
    | some j =>
      cases j with
      | null => simp [receive, jsonGetType, hl]
      | bool b => simp [receive, jsonGetType, hl]
      | num n => simp [receive, jsonGetType, hl]
      | arr xs => simp [receive, jsonGetType, hl]
      | obj fs => simp [receive, jsonGetType, hl]
      | str s =>
        have hns := hty s hl
        have h1 : ¬ s = "ping" := fun hh => hns (by rw [hh]; decide)
        have h2 : ¬ s = "message" := fun hh => hns (by rw [hh]; decide)
        have h3 : ¬ s = "typing" := fun hh => hns (by rw [hh]; decide)
        have h4 : ¬ s = "read_receipt" := fun hh => hns (by rw [hh]; decide)
        simp [receive, jsonGetType, hl, h1, h2, h3, h4]
  · intro j hj
    cases j with
    | null => rfl
    | bool b => rfl
    | num n => rfl
    | str s => rfl
    | arr xs => rfl
    | obj fs => exact absurd rfl (hj fs)

/-- Witness for the amended C7: the unknown type `"pong"` is dropped. -/
theorem receive_soft_drop_witness :
    receive sessSeek 0 dbFix Cache.empty (some (Json.obj [("type", Json.str "pong")])) =
      noopOutcome dbFix Cache.empty :=
  (receive_soft_drop sessSeek 0 dbFix Cache.empty).2.1 [("type", Json.str "pong")]
    (fun s h => by
      simp [lookupField] at h
      subst h
      decide)

/-- C8 counterexample: the connection's own user (`uSeek`, the sender) is
reported online in the payload expression although no presence marker for
them exists in the cache — the reported status is not exactly "marker
present and unexpired". -/
theorem sender_reported_online_without_marker :
    senderIsOnline sessSeek Cache.empty 0 uSeek.id = true ∧
    Cache.get Cache.empty (userOnlineKey uSeek.id) 0 = none := by
  decide

/-- C8 amended: marking online writes the presence marker keyed by the
user's id with a 300-second (5-minute) TTL — present exactly until the
expiry instant; marking offline deletes it.  In the payload expressions of
`serialize_message`, the *receiver's* `is_online` is exactly "marker
present and unexpired", while the *sender's* is "the sender is the
serializing connection's own user OR the marker is present". -/
theorem presence_marker_semantics (sess : Session) (db : DB) (cache : Cache)
    (now t uid : Nat) :
    ((set_user_online sess true now db cache).2.get (userOnlineKey sess.user.id) t =
      if t < now + 300 then some (toString now) else none) ∧
    ((set_user_online sess false now db cache).2.get (userOnlineKey sess.user.id) t = none) ∧
    (receiverIsOnline cache now uid = (cache.get (userOnlineKey uid) now).isSome) ∧
    (senderIsOnline sess cache now uid =
      (decide (uid = sess.user.id) || (cache.get (userOnlineKey uid) now).isSome)) := by
  refine ⟨?_, ?_, rfl, rfl⟩
  · exact Cache.get_set_self cache (userOnlineKey sess.user.id) (toString now) now 300 t
  · exact Cache.get_delete_self cache (userOnlineKey sess.user.id) t

/-- Witness for the amended C8: the marker written at time 0 is readable at
time 299 and gone at time 300. -/
theorem presence_marker_semantics_witness :
    ((set_user_online sessSeek true 0 dbFix Cache.empty).2.get (userOnlineKey 2) 299 =
      if (299 : Nat) < 0 + 300 then some (toString (0 : Nat)) else none) ∧
    ((set_user_online sessSeek false 0 dbFix Cache.empty).2.get (userOnlineKey 2) 299 = none) :=
  ⟨(presence_marker_semantics sessSeek dbFix Cache.empty 0 299 2).1,
   (presence_marker_semantics sessSeek dbFix Cache.empty 0 299 2).2.1⟩

end JobPortal
